import Mathlib

/-
  Verification development for the TPPA polar-alignment motor controller
  (GRBL-compatible sketch: command interpreter + motion executor).

  The embedding models the controller's observable behaviour: logical axis
  positions (exact rationals standing in for the sketch's floats), the
  feed-hold flag, the step pulses issued on each axis, and the textual replies
  sent back to the host.  All definitions follow the source sketch line by
  line; string primitives are implemented over `List Char` so that every
  definition is executable.
-/

namespace TPPA

/-- C `lroundf`: round to nearest integer, halfway cases away from zero. -/
def lroundQ (x : ℚ) : ℤ :=
  if 0 ≤ x then ⌊x + (1 : ℚ) / 2⌋ else -⌊-x + (1 : ℚ) / 2⌋

/-- The two motor axes. -/
inductive Axis
  | AZM
  | ALT
deriving DecidableEq, Repr

/-- `STEPS_PER_DEG_AZM = MOTOR_FULL_STEPS * MICROSTEPPING * GEAR_RATIO_AZM / 360`. -/
def STEPS_PER_DEG_AZM : ℚ := 200 * 16 * 100 / 360

/-- `STEPS_PER_DEG_ALT = MOTOR_FULL_STEPS * MICROSTEPPING * GEAR_RATIO_ALT / 360`. -/
def STEPS_PER_DEG_ALT : ℚ := 200 * 16 * 90 / 360

def LIMIT_AZM_MIN_DEG : ℚ := -10
def LIMIT_AZM_MAX_DEG : ℚ := 10
def LIMIT_ALT_MIN_DEG : ℚ := -15
def LIMIT_ALT_MAX_DEG : ℚ := 15

/-- Global controller state: the two logical positions and the feed-hold flag. -/
structure Ctrl where
  posDegAZM : ℚ
  posDegALT : ℚ
  feedHold : Bool
deriving DecidableEq, Repr

/-- Boot state: both positions zero, feed-hold clear. -/
def bootState : Ctrl := { posDegAZM := 0, posDegALT := 0, feedHold := false }

/-- One `stepAxis` invocation's pulse-train observation: which axis, which
direction level was latched on the DIR pin, and how many pulses were actually
issued on the STEP pin. -/
structure PulseEvent where
  axis : Axis
  dirHigh : Bool
  count : ℕ
deriving DecidableEq, Repr

/-- Number of pulses emitted by the `for (s = 0; s < total; ++s)` loop whose
body first checks the feed-hold flag and breaks: the length of the maximal
prefix of iterations on which the hold flag was not observed set. -/
def pulsesIssued (total : ℕ) (holdAt : ℕ → Bool) : ℕ :=
  ((List.range total).takeWhile (fun s => ! holdAt s)).length

/-- Result of one `stepAxis` call: the new value of the position variable and
the pulse events issued on the GPIO. -/
structure StepOut where
  posAfter : ℚ
  events : List PulseEvent

/-- `stepAxis(pinStep, pinDir, deltaDeg, stepsPerDeg, posVar)`:
`totalSteps = lroundf(deltaDeg * stepsPerDeg)`; if zero, return at once
(position variable untouched); otherwise latch the direction pin, pulse until
done or until the feed-hold flag is observed set, then `posVar += deltaDeg`
unconditionally ("update logical coordinate even if aborted").  `holdAt s` is
the value of the volatile hold flag observed at loop iteration `s`. -/
def stepAxis (a : Axis) (deltaDeg stepsPerDeg pos : ℚ) (holdAt : ℕ → Bool) : StepOut :=
  if lroundQ (deltaDeg * stepsPerDeg) = 0 then
    { posAfter := pos, events := [] }
  else
    { posAfter := pos + deltaDeg
      events := [{ axis := a
                   dirHigh := decide (0 < lroundQ (deltaDeg * stepsPerDeg))
                   count := pulsesIssued (lroundQ (deltaDeg * stepsPerDeg)).natAbs holdAt }] }

/-- Total pulse count issued on one axis across a list of pulse events. -/
def pulseTotal (evts : List PulseEvent) (a : Axis) : ℕ :=
  (evts.filter (fun e => decide (e.axis = a))).foldl (fun n e => n + e.count) 0

/-- Signed angular displacement implied by the pulses actually issued on an
axis: each event contributes `±count / stepsPerDeg` according to the latched
direction level. -/
def pulseImpliedDelta (evts : List PulseEvent) (a : Axis) (stepsPerDeg : ℚ) : ℚ :=
  (evts.filter (fun e => decide (e.axis = a))).foldl
    (fun q e => q + (if e.dirHigh then (e.count : ℚ) else -(e.count : ℚ)) / stepsPerDeg) 0

/- ───────────────────────── string primitives ───────────────────────── -/

/-- Whitespace as recognised by `isspace` (used by `String::trim`). -/
def isWS (c : Char) : Bool :=
  c == ' ' || c == '\t' || c == '\n' || c == '\x0B' || c == '\x0C' || c == '\r'

/-- Arduino `String::trim`: strip leading and trailing whitespace. -/
def trimStr (s : String) : String :=
  String.mk (((s.data.dropWhile isWS).reverse.dropWhile isWS).reverse)

/-- Arduino `String::startsWith`. -/
def strStarts (s pat : String) : Bool :=
  pat.data.isPrefixOf s.data

/-- Digits of a decimal numeral to a natural number. -/
def digitsToNat (ds : List Char) : ℕ :=
  ds.foldl (fun a c => 10 * a + (c.toNat - 48)) 0

/-- Arduino `String::toFloat` (C `atof`): skip leading whitespace, optional
sign, integer digits, optional `.` and fraction digits; anything else ends the
parse; no digits at all yields 0. -/
def atofQ (s : String) : ℚ :=
  let cs := s.data.dropWhile isWS
  let neg : Bool :=
    match cs with
    | '-' :: _ => true
    | _ => false
  let cs2 :=
    match cs with
    | '-' :: r => r
    | '+' :: r => r
    | _ => cs
  let ip := cs2.takeWhile Char.isDigit
  let rest := cs2.dropWhile Char.isDigit
  let fp :=
    match rest with
    | '.' :: r => r.takeWhile Char.isDigit
    | _ => []
  let mag : ℚ := (digitsToNat ip : ℚ) + (digitsToNat fp : ℚ) / (10 : ℚ) ^ fp.length
  if neg then -mag else mag

/-- Zero-pad a three-digit fraction field. -/
def pad3 (n : ℕ) : String :=
  if n < 10 then "00" ++ Nat.repr n
  else if n < 100 then "0" ++ Nat.repr n
  else Nat.repr n

/-- `Serial.print(x, 3)` (Arduino `Print::printFloat` with 3 digits): print
`-` for negative values, then the magnitude rounded half-up to three decimal
places. -/
def fmt3 (q : ℚ) : String :=
  let m : ℚ := if q < 0 then -q else q
  let n : ℕ := (⌊m * 1000 + (1 : ℚ) / 2⌋).toNat
  (if q < 0 then "-" else "") ++ Nat.repr (n / 1000) ++ "." ++ pad3 (n % 1000)

/-- `sendStatus(state)`: the GRBL-style status frame
`<STATE|MPos:azm,alt,0|` with both positions printed to three decimals. -/
def sendStatus (st : Ctrl) (state : String) : String :=
  "<" ++ state ++ "|MPos:" ++ fmt3 st.posDegAZM ++ "," ++ fmt3 st.posDegALT ++ ",0|"

/-- `line.substring(line.indexOf('=') + 1)`: everything after the first `=`. -/
def afterEq (s : String) : String :=
  String.mk (s.data.drop (s.data.findIdx (fun c => c == '=') + 1))

/-- `line.replace("G21", "")`: delete every occurrence of `G21`. -/
def removeG21 : List Char → List Char
  | 'G' :: '2' :: '1' :: rest => removeG21 rest
  | c :: rest => c :: removeG21 rest
  | [] => []

/-- `line.indexOf('F')`: index of the first `F`, `-1` when absent. -/
def fIndex (cs : List Char) : ℤ :=
  match cs.findIdx? (fun c => c == 'F') with
  | some i => (i : ℤ)
  | none => -1

/- ───────────────────────── command handlers ───────────────────────── -/

/-- The `axis == 'X' / 'Y'` dispatch of the `$J` handler: compute the target,
check the soft limits, and either report a limit violation, or run the pulse
train and update the position variable.  Returns the new state, the reply
lines this block prints, and the pulse events issued. -/
def execJog (st : Ctrl) (axis : Char) (relative : Bool) (value : ℚ) :
    Ctrl × List String × List PulseEvent :=
  if axis = 'X' then
    let target := if relative then st.posDegAZM + value else value
    if target < LIMIT_AZM_MIN_DEG ∨ target > LIMIT_AZM_MAX_DEG then
      (st, ["error:AZM limit"], [])
    else
      let r := stepAxis Axis.AZM (target - st.posDegAZM) STEPS_PER_DEG_AZM st.posDegAZM
        (fun _ => st.feedHold)
      ({ st with posDegAZM := r.posAfter }, [], r.events)
  else if axis = 'Y' then
    let target := if relative then st.posDegALT + value else value
    if target < LIMIT_ALT_MIN_DEG ∨ target > LIMIT_ALT_MAX_DEG then
      (st, ["error:ALT limit"], [])
    else
      let r := stepAxis Axis.ALT (target - st.posDegALT) STEPS_PER_DEG_ALT st.posDegALT
        (fun _ => st.feedHold)
      ({ st with posDegALT := r.posAfter }, [], r.events)
  else (st, ["error:Axis"], [])

/-- Split the mode token `G91`/`G53` off the front of the jog body, as the
sketch does; `none` when neither token is present. -/
def modeSplit (rest : String) : Option (Bool × String) :=
  if strStarts rest "G91" then some (true, String.mk (rest.data.drop 3))
  else if strStarts rest "G53" then some (false, String.mk (rest.data.drop 3))
  else none

/-- The `$J=` / `J=` handler body, applied to the text after the `=`:
mode token, `G21` removal, trim, `F` position check (`fPos < 2` fails),
axis letter, value, then `ok`, a `Run` frame, the axis dispatch, and a
closing frame reflecting the hold flag. -/
def handleJog (st : Ctrl) (rest : String) : Ctrl × List String × List PulseEvent :=
  match modeSplit rest with
  | none => (st, ["error:Expected G91/G53"], [])
  | some (relative, r1) =>
    let r2 := trimStr (String.mk (removeG21 r1.data))
    let fPos := fIndex r2.data
    if fPos < 2 then (st, ["error:Bad $J format"], [])
    else
      let axis := r2.data.headD (Char.ofNat 0)
      let value := atofQ (String.mk ((r2.data.drop 1).take (fPos.toNat - 1)))
      let out := execJog st axis relative value
      (out.1,
        ["ok", sendStatus st "Run"] ++ out.2.1
          ++ [sendStatus out.1 (if out.1.feedHold then "Hold" else "Idle")],
        out.2.2)

/-- The legacy `AZM:`/`ALT:` handler with delta `d` already parsed: limit
check on `pos + d`, else `BUSY`, the move, `OK`, and a status frame. -/
def handleLegacy (st : Ctrl) (a : Axis) (d : ℚ) : Ctrl × List String × List PulseEvent :=
  match a with
  | Axis.AZM =>
    if st.posDegAZM + d < LIMIT_AZM_MIN_DEG ∨ st.posDegAZM + d > LIMIT_AZM_MAX_DEG then
      (st, ["ERR:AZM limit"], [])
    else
      let r := stepAxis Axis.AZM d STEPS_PER_DEG_AZM st.posDegAZM (fun _ => st.feedHold)
      let st2 := { st with posDegAZM := r.posAfter }
      (st2, ["BUSY", "OK", sendStatus st2 (if st2.feedHold then "Hold" else "Idle")], r.events)
  | Axis.ALT =>
    if st.posDegALT + d < LIMIT_ALT_MIN_DEG ∨ st.posDegALT + d > LIMIT_ALT_MAX_DEG then
      (st, ["ERR:ALT limit"], [])
    else
      let r := stepAxis Axis.ALT d STEPS_PER_DEG_ALT st.posDegALT (fun _ => st.feedHold)
      let st2 := { st with posDegALT := r.posAfter }
      (st2, ["BUSY", "OK", sendStatus st2 (if st2.feedHold then "Hold" else "Idle")], r.events)

/-- One iteration of `loop()` applied to one received line: the `?` poll, the
`!` / `~` hold controls, `$X`, the `$J=`/`J=` jog, the legacy console
commands, `RST`, `HOME`, `POS?`/`STA?`, and the unknown-command fallback.
Returns the state after the command, the reply lines printed, and the pulse
events issued. -/
def processLine (st : Ctrl) (raw : String) : Ctrl × List String × List PulseEvent :=
  let line := trimStr raw
  if line = "" then (st, [], [])
  else if line = "?" then
    (st, [sendStatus st (if st.feedHold then "Hold" else "Idle"), ""], [])
  else if line = "!" then ({ st with feedHold := true }, ["ok"], [])
  else if line = "~" then ({ st with feedHold := false }, ["ok"], [])
  else if line = "$X" then (st, ["ok"], [])
  else if strStarts line "$J=" || strStarts line "J=" then
    handleJog st (afterEq line)
  else if strStarts line "AZM:" then
    handleLegacy st Axis.AZM (atofQ (String.mk (line.data.drop 4)))
  else if strStarts line "ALT:" then
    handleLegacy st Axis.ALT (atofQ (String.mk (line.data.drop 4)))
  else if line = "RST" then
    let st2 := { st with posDegAZM := 0, posDegALT := 0 }
    (st2, ["OK", sendStatus st2 "Idle"], [])
  else if line = "HOME" then
    let r1 := stepAxis Axis.AZM (-st.posDegAZM) STEPS_PER_DEG_AZM st.posDegAZM
      (fun _ => st.feedHold)
    let st1 := { st with posDegAZM := r1.posAfter }
    let r2 := stepAxis Axis.ALT (-st1.posDegALT) STEPS_PER_DEG_ALT st1.posDegALT
      (fun _ => st1.feedHold)
    let st2 := { st1 with posDegALT := r2.posAfter }
    (st2, ["BUSY", "OK", sendStatus st2 "Idle"], r1.events ++ r2.events)
  else if line = "POS?" || line = "STA?" then
    (st, ["POS:AZM=" ++ fmt3 st.posDegAZM ++ ",ALT=" ++ fmt3 st.posDegALT], [])
  else (st, ["ERR:Unknown command"], [])

/-- Process a sequence of received lines, accumulating replies and pulses. -/
def processLines (st : Ctrl) : List String → Ctrl × List String × List PulseEvent
  | [] => (st, [], [])
  | l :: ls =>
    let o1 := processLine st l
    let o2 := processLines o1.1 ls
    (o2.1, o1.2.1 ++ o2.2.1, o1.2.2 ++ o2.2.2)

/- ─────────────────── axis-indexed views of the state ─────────────────── -/

def axisPos (st : Ctrl) : Axis → ℚ
  | Axis.AZM => st.posDegAZM
  | Axis.ALT => st.posDegALT

def axisMin : Axis → ℚ
  | Axis.AZM => LIMIT_AZM_MIN_DEG
  | Axis.ALT => LIMIT_ALT_MIN_DEG

def axisMax : Axis → ℚ
  | Axis.AZM => LIMIT_AZM_MAX_DEG
  | Axis.ALT => LIMIT_ALT_MAX_DEG

def axisSpd : Axis → ℚ
  | Axis.AZM => STEPS_PER_DEG_AZM
  | Axis.ALT => STEPS_PER_DEG_ALT

/-- Fixed axis-letter map of the jog grammar: `X` is azimuth, `Y` altitude. -/
def axisChar : Axis → Char
  | Axis.AZM => 'X'
  | Axis.ALT => 'Y'

/-- The limit-violation reply of the `$J` handler for each axis. -/
def limitErrorLine : Axis → String
  | Axis.AZM => "error:AZM limit"
  | Axis.ALT => "error:ALT limit"

/-- The limit-violation reply of the legacy handler for each axis. -/
def legacyErrLine : Axis → String
  | Axis.AZM => "ERR:AZM limit"
  | Axis.ALT => "ERR:ALT limit"

/-- Write one axis's position variable, leaving the rest of the state alone. -/
def setAxisPos (st : Ctrl) (a : Axis) (p : ℚ) : Ctrl :=
  match a with
  | Axis.AZM => { st with posDegAZM := p }
  | Axis.ALT => { st with posDegALT := p }

/-- The malformed-line conditions of the `$J` grammar, exactly as the handler
checks them: no `G91`/`G53` mode token, `F` missing or before a complete
axis-letter-plus-value (`fPos < 2`), or an axis letter other than `X`/`Y`. -/
def jogMalformedb (rest : String) : Bool :=
  match modeSplit rest with
  | none => true
  | some (_, r1) =>
    let r2 := trimStr (String.mk (removeG21 r1.data))
    if fIndex r2.data < 2 then true
    else decide (r2.data.headD (Char.ofNat 0) ≠ 'X' ∧ r2.data.headD (Char.ofNat 0) ≠ 'Y')

/-- Both positions inside their soft-limit intervals. -/
def inLimits (st : Ctrl) : Prop :=
  LIMIT_AZM_MIN_DEG ≤ st.posDegAZM ∧ st.posDegAZM ≤ LIMIT_AZM_MAX_DEG
    ∧ LIMIT_ALT_MIN_DEG ≤ st.posDegALT ∧ st.posDegALT ≤ LIMIT_ALT_MAX_DEG

/- ───────────────────────── general lemmas ───────────────────────── -/

theorem stepAxis_posAfter (a : Axis) (d spd pos : ℚ) (h : ℕ → Bool) :
    (stepAxis a d spd pos h).posAfter =
      if lroundQ (d * spd) = 0 then pos else pos + d := by
  unfold stepAxis
  split <;> rfl

theorem stepAxis_z (a : Axis) (d spd pos : ℚ) (h : ℕ → Bool)
    (hz : lroundQ (d * spd) = 0) :
    stepAxis a d spd pos h = { posAfter := pos, events := [] } := by
  unfold stepAxis
  rw [if_pos hz]

theorem stepAxis_nz (a : Axis) (d spd pos : ℚ) (h : ℕ → Bool)
    (hnz : lroundQ (d * spd) ≠ 0) :
    stepAxis a d spd pos h =
      { posAfter := pos + d
        events := [{ axis := a
                     dirHigh := decide (0 < lroundQ (d * spd))
                     count := pulsesIssued (lroundQ (d * spd)).natAbs h }] } := by
  unfold stepAxis
  rw [if_neg hnz]

theorem pulsesIssued_hold (n : ℕ) : pulsesIssued n (fun _ => true) = 0 := by
  unfold pulsesIssued
  cases n with
  | zero => rfl
  | succ m => simp [List.range_succ_eq_map, List.takeWhile]

theorem pulsesIssued_clear (n : ℕ) : pulsesIssued n (fun _ => false) = n := by
  unfold pulsesIssued
  rw [List.takeWhile_eq_self_iff.mpr (by intro a _; rfl)]
  exact List.length_range n

theorem pulsesIssued_le (n : ℕ) (h : ℕ → Bool) : pulsesIssued n h ≤ n := by
  unfold pulsesIssued
  have hlen : ∀ (l : List ℕ) (p : ℕ → Bool), (l.takeWhile p).length ≤ l.length := by
    intro l p
    induction l with
    | nil => simp [List.takeWhile]
    | cons a t ih =>
      simp only [List.takeWhile]
      cases p a
      · simp
      · simpa using Nat.succ_le_succ ih
  calc ((List.range n).takeWhile (fun s => ! h s)).length
      ≤ (List.range n).length := hlen _ _
    _ = n := List.length_range n

theorem axisPos_set (st : Ctrl) (a : Axis) (p : ℚ) :
    axisPos (setAxisPos st a p) a = p := by
  cases a <;> rfl

theorem setAxisPos_feedHold (st : Ctrl) (a : Axis) (p : ℚ) :
    (setAxisPos st a p).feedHold = st.feedHold := by
  cases a <;> rfl

/-- The axis dispatch of the `$J` handler, written uniformly in the axis. -/
theorem execJog_eq (a : Axis) (st : Ctrl) (rel : Bool) (v : ℚ) :
    execJog st (axisChar a) rel v =
      (if (if rel then axisPos st a + v else v) < axisMin a
          ∨ (if rel then axisPos st a + v else v) > axisMax a then
        (st, [limitErrorLine a], [])
       else
        (setAxisPos st a
          (stepAxis a ((if rel then axisPos st a + v else v) - axisPos st a)
            (axisSpd a) (axisPos st a) (fun _ => st.feedHold)).posAfter,
         [],
         (stepAxis a ((if rel then axisPos st a + v else v) - axisPos st a)
           (axisSpd a) (axisPos st a) (fun _ => st.feedHold)).events)) := by
  cases a <;> rfl

theorem execJog_accept (a : Axis) (st : Ctrl) (rel : Bool) (v : ℚ)
    (hlo : axisMin a ≤ (if rel then axisPos st a + v else v))
    (hhi : (if rel then axisPos st a + v else v) ≤ axisMax a) :
    execJog st (axisChar a) rel v =
      (setAxisPos st a
        (stepAxis a ((if rel then axisPos st a + v else v) - axisPos st a)
          (axisSpd a) (axisPos st a) (fun _ => st.feedHold)).posAfter,
       [],
       (stepAxis a ((if rel then axisPos st a + v else v) - axisPos st a)
         (axisSpd a) (axisPos st a) (fun _ => st.feedHold)).events) := by
  rw [execJog_eq]
  exact if_neg (by rw [not_or]; exact ⟨not_lt.mpr hlo, not_lt.mpr hhi⟩)

theorem execJog_feedHold (st : Ctrl) (c : Char) (rel : Bool) (v : ℚ) :
    (execJog st c rel v).1.feedHold = st.feedHold := by
  unfold execJog
  dsimp only
  split_ifs <;> rfl

theorem handleJog_feedHold (st : Ctrl) (rest : String) :
    (handleJog st rest).1.feedHold = st.feedHold := by
  unfold handleJog
  cases modeSplit rest with
  | none => rfl
  | some p =>
    obtain ⟨rel, r1⟩ := p
    dsimp only
    split_ifs <;> simp [execJog_feedHold]

theorem handleLegacy_feedHold (st : Ctrl) (a : Axis) (d : ℚ) :
    (handleLegacy st a d).1.feedHold = st.feedHold := by
  cases a <;> (unfold handleLegacy; split_ifs <;> rfl)

/-- The legacy handler, written uniformly in the axis. -/
theorem handleLegacy_eq (st : Ctrl) (a : Axis) (d : ℚ) :
    handleLegacy st a d =
      (if axisPos st a + d < axisMin a ∨ axisPos st a + d > axisMax a then
        (st, [legacyErrLine a], [])
       else
        (setAxisPos st a
          (stepAxis a d (axisSpd a) (axisPos st a) (fun _ => st.feedHold)).posAfter,
         ["BUSY", "OK",
          sendStatus
            (setAxisPos st a
              (stepAxis a d (axisSpd a) (axisPos st a) (fun _ => st.feedHold)).posAfter)
            (if (setAxisPos st a
              (stepAxis a d (axisSpd a) (axisPos st a)
                (fun _ => st.feedHold)).posAfter).feedHold
             then "Hold" else "Idle")],
         (stepAxis a d (axisSpd a) (axisPos st a) (fun _ => st.feedHold)).events)) := by
  cases a <;> rfl

/-- The legacy handler, on an accepted delta. -/
theorem handleLegacy_accept (st : Ctrl) (a : Axis) (d : ℚ)
    (hlo : axisMin a ≤ axisPos st a + d) (hhi : axisPos st a + d ≤ axisMax a) :
    handleLegacy st a d =
      (setAxisPos st a
        (stepAxis a d (axisSpd a) (axisPos st a) (fun _ => st.feedHold)).posAfter,
       ["BUSY", "OK",
        sendStatus
          (setAxisPos st a
            (stepAxis a d (axisSpd a) (axisPos st a) (fun _ => st.feedHold)).posAfter)
          (if (setAxisPos st a
            (stepAxis a d (axisSpd a) (axisPos st a) (fun _ => st.feedHold)).posAfter).feedHold
           then "Hold" else "Idle")],
       (stepAxis a d (axisSpd a) (axisPos st a) (fun _ => st.feedHold)).events) := by
  rw [handleLegacy_eq]
  exact if_neg (by rw [not_or]; exact ⟨not_lt.mpr hlo, not_lt.mpr hhi⟩)

theorem pulseTotal_single (a : Axis) (b : Bool) (n : ℕ) :
    pulseTotal [{ axis := a, dirHigh := b, count := n }] a = n := by
  simp [pulseTotal, List.filter_cons, List.foldl]

/- ───────────────────────── claim theorems ───────────────────────── -/

/-- C1 (counterexample): with feed-hold set by `!`, the legacy jog `AZM:0.01`
is accepted, issues zero pulses on the azimuth step pin, yet `posDegAZM`
advances to `0.01`; so after this aborted move the logical position does not
equal the position implied by the pulses actually issued. -/
theorem c1_cex_position_differs_from_pulses :
    (processLines bootState ["!", "AZM:0.01"]).1.posDegAZM = 1 / 100
    ∧ pulseTotal (processLines bootState ["!", "AZM:0.01"]).2.2 Axis.AZM = 0
    ∧ (processLines bootState ["!", "AZM:0.01"]).1.posDegAZM
        ≠ bootState.posDegAZM
            + pulseImpliedDelta (processLines bootState ["!", "AZM:0.01"]).2.2 Axis.AZM
                STEPS_PER_DEG_AZM := by
  have hv : atofQ "0.01" = 1 / 100 := by
    rw [show atofQ "0.01" = ((0 : ℕ) : ℚ) + ((1 : ℕ) : ℚ) / (10 : ℚ) ^ (2 : ℕ) from rfl]
    norm_num
  have hnz : lroundQ ((1 / 100 : ℚ) * axisSpd Axis.AZM) ≠ 0 := by
    norm_num [lroundQ, axisSpd, STEPS_PER_DEG_AZM]
  have e1 : (processLines bootState ["!", "AZM:0.01"]).1
      = (processLine { posDegAZM := 0, posDegALT := 0, feedHold := true } "AZM:0.01").1 := rfl
  have e2 : (processLines bootState ["!", "AZM:0.01"]).2.2
      = (processLine { posDegAZM := 0, posDegALT := 0, feedHold := true } "AZM:0.01").2.2
          ++ [] := rfl
  have h2 : processLine { posDegAZM := 0, posDegALT := 0, feedHold := true } "AZM:0.01"
      = handleLegacy { posDegAZM := 0, posDegALT := 0, feedHold := true } Axis.AZM
          (atofQ "0.01") := rfl
  have h3 : handleLegacy { posDegAZM := 0, posDegALT := 0, feedHold := true } Axis.AZM
        (atofQ "0.01")
      = handleLegacy { posDegAZM := 0, posDegALT := 0, feedHold := true } Axis.AZM
          (1 / 100) := by rw [hv]
  have h4 := handleLegacy_accept { posDegAZM := 0, posDegALT := 0, feedHold := true }
    Axis.AZM (1 / 100)
    (by norm_num [axisPos, axisMin, LIMIT_AZM_MIN_DEG])
    (by norm_num [axisPos, axisMax, LIMIT_AZM_MAX_DEG])
  rw [stepAxis_nz _ _ _ _ _ hnz] at h4
  refine ⟨?_, ?_, ?_⟩
  · rw [e1, h2, h3, h4]
    norm_num [setAxisPos, axisPos]
  · rw [e2, h2, h3, h4]
    dsimp only
    rw [List.append_nil, pulsesIssued_hold, pulseTotal_single]
  · rw [e1, e2, h2, h3, h4]
    dsimp only
    rw [List.append_nil, pulsesIssued_hold]
    norm_num [setAxisPos, axisPos, bootState, pulseImpliedDelta, List.filter_cons, List.foldl]

/-- C1 (amended): after any `stepAxis` call the position variable advances by
the full requested delta whenever the rounded pulse count is nonzero (and is
left unchanged when it is zero), regardless of the feed-hold schedule; the
pulses actually issued are only bounded by that count, so the logical
position can overstate the pulses issued after a hold-truncated move. -/
theorem c1_amended_position_advances_by_requested_delta (a : Axis) (d spd pos : ℚ)
    (holdAt : ℕ → Bool) :
    (stepAxis a d spd pos holdAt).posAfter
        = (if lroundQ (d * spd) = 0 then pos else pos + d)
    ∧ pulseTotal (stepAxis a d spd pos holdAt).events a ≤ (lroundQ (d * spd)).natAbs := by
  refine ⟨stepAxis_posAfter a d spd pos holdAt, ?_⟩
  by_cases hz : lroundQ (d * spd) = 0
  · rw [stepAxis_z _ _ _ _ _ hz]
    simp [pulseTotal]
  · rw [stepAxis_nz _ _ _ _ _ hz]
    dsimp only
    rw [pulseTotal_single]
    exact pulsesIssued_le _ _

/-- C2: for every jog with an in-range target whose pulse loop actually runs
(the rounded pulse count is nonzero), after `stepAxis` returns the axis
position has advanced by the originally requested delta (target minus start),
whatever the hold flag; in particular with the hold flag already set the move
emits zero pulses yet the position still advances by the requested delta. -/
theorem c2_jog_advances_by_requested_delta (a : Axis) (st : Ctrl) (rel : Bool) (v : ℚ)
    (hlo : axisMin a ≤ (if rel then axisPos st a + v else v))
    (hhi : (if rel then axisPos st a + v else v) ≤ axisMax a)
    (hnz : lroundQ (((if rel then axisPos st a + v else v) - axisPos st a) * axisSpd a) ≠ 0) :
    axisPos (execJog st (axisChar a) rel v).1 a
        = axisPos st a + ((if rel then axisPos st a + v else v) - axisPos st a)
    ∧ (st.feedHold = true → pulseTotal (execJog st (axisChar a) rel v).2.2 a = 0) := by
  rw [execJog_accept a st rel v hlo hhi]
  constructor
  · dsimp only
    rw [axisPos_set, stepAxis_posAfter, if_neg hnz]
  · intro hfh
    dsimp only
    rw [stepAxis_nz _ _ _ _ _ hnz]
    dsimp only
    rw [pulseTotal_single]
    simp only [hfh]
    exact pulsesIssued_hold _

/-- C2 (witness): absolute jog of azimuth to 5 with the hold flag set. -/
theorem c2_jog_advances_witness :
    axisPos (execJog { posDegAZM := 0, posDegALT := 0, feedHold := true } 'X' false 5).1 Axis.AZM
        = axisPos { posDegAZM := 0, posDegALT := 0, feedHold := true } Axis.AZM
            + ((5 : ℚ) - axisPos { posDegAZM := 0, posDegALT := 0, feedHold := true } Axis.AZM)
    ∧ pulseTotal
        (execJog { posDegAZM := 0, posDegALT := 0, feedHold := true } 'X' false 5).2.2
        Axis.AZM = 0 := by
  have h := c2_jog_advances_by_requested_delta Axis.AZM
    { posDegAZM := 0, posDegALT := 0, feedHold := true } false 5
    (by norm_num [axisPos, axisMin, LIMIT_AZM_MIN_DEG])
    (by norm_num [axisPos, axisMax, LIMIT_AZM_MAX_DEG])
    (by norm_num [lroundQ, axisPos, axisSpd, STEPS_PER_DEG_AZM])
  exact ⟨h.1, h.2 rfl⟩

/-- C3: any jog (absolute or relative) whose computed target lies outside the
axis's soft-limit interval replies with the limit-violation error, emits no
pulses, and leaves the whole controller state (both positions and the hold
flag) unchanged. -/
theorem c3_limit_violation_rejected (a : Axis) (st : Ctrl) (rel : Bool) (v : ℚ)
    (hout : (if rel then axisPos st a + v else v) < axisMin a
        ∨ (if rel then axisPos st a + v else v) > axisMax a) :
    execJog st (axisChar a) rel v = (st, [limitErrorLine a], []) := by
  rw [execJog_eq]
  exact if_pos hout

/-- C3 (witness): relative altitude jog by −20 from (5, 0) is rejected. -/
theorem c3_limit_violation_witness :
    execJog { posDegAZM := 5, posDegALT := 0, feedHold := false } 'Y' true (-20)
      = ({ posDegAZM := 5, posDegALT := 0, feedHold := false }, ["error:ALT limit"], []) := by
  exact c3_limit_violation_rejected Axis.ALT _ true (-20)
    (Or.inl (by norm_num [axisPos, axisMin, LIMIT_ALT_MIN_DEG]))

/-- C4 (counterexample): the in-range absolute azimuth jog to `0.0001`° from
the boot state rounds to zero pulses; `stepAxis` returns before the position
update, so `posDegAZM` stays `0` — it is not overwritten with the target. -/
theorem c4_cex_zero_count_keeps_old_position :
    lroundQ (((1 : ℚ) / 10000 - bootState.posDegAZM) * STEPS_PER_DEG_AZM) = 0
    ∧ LIMIT_AZM_MIN_DEG ≤ (1 : ℚ) / 10000
    ∧ (1 : ℚ) / 10000 ≤ LIMIT_AZM_MAX_DEG
    ∧ execJog bootState 'X' false ((1 : ℚ) / 10000) = (bootState, [], [])
    ∧ bootState.posDegAZM ≠ (1 : ℚ) / 10000 := by
  have hset : setAxisPos bootState Axis.AZM (axisPos bootState Axis.AZM) = bootState := rfl
  refine ⟨?_, ?_, ?_, ?_, ?_⟩
  · norm_num [lroundQ, bootState, STEPS_PER_DEG_AZM]
  · norm_num [LIMIT_AZM_MIN_DEG]
  · norm_num [LIMIT_AZM_MAX_DEG]
  · rw [show execJog bootState 'X' false ((1 : ℚ) / 10000)
        = execJog bootState (axisChar Axis.AZM) false ((1 : ℚ) / 10000) from rfl,
      execJog_accept Axis.AZM bootState false ((1 : ℚ) / 10000)
        (by norm_num [axisPos, bootState, axisMin, LIMIT_AZM_MIN_DEG])
        (by norm_num [axisPos, bootState, axisMax, LIMIT_AZM_MAX_DEG]),
      stepAxis_z _ _ _ _ _
        (by norm_num [lroundQ, axisPos, bootState, axisSpd, STEPS_PER_DEG_AZM])]
    rw [show (StepOut.mk (axisPos bootState Axis.AZM) []).posAfter
        = axisPos bootState Axis.AZM from rfl, hset]
  · norm_num [bootState]

/-- C4 (amended): a jog with an in-range target whose delta rounds to a zero
pulse count emits no pulses, prints nothing in the axis dispatch, and leaves
the whole state unchanged — the position is NOT overwritten with the target. -/
theorem c4_amended_zero_count_noop (a : Axis) (st : Ctrl) (rel : Bool) (v : ℚ)
    (hlo : axisMin a ≤ (if rel then axisPos st a + v else v))
    (hhi : (if rel then axisPos st a + v else v) ≤ axisMax a)
    (hz : lroundQ (((if rel then axisPos st a + v else v) - axisPos st a) * axisSpd a) = 0) :
    execJog st (axisChar a) rel v = (st, [], []) := by
  have hset : setAxisPos st a (axisPos st a) = st := by cases a <;> rfl
  rw [execJog_accept a st rel v hlo hhi, stepAxis_z _ _ _ _ _ hz]
  rw [show (StepOut.mk (axisPos st a) []).posAfter = axisPos st a from rfl, hset]

/-- C4 (amended, witness): the jog of the counterexample, via the theorem. -/
theorem c4_amended_witness :
    execJog bootState 'X' false ((1 : ℚ) / 10000) = (bootState, [], []) := by
  exact c4_amended_zero_count_noop Axis.AZM bootState false (1 / 10000)
    (by norm_num [axisPos, bootState, axisMin, LIMIT_AZM_MIN_DEG])
    (by norm_num [axisPos, bootState, axisMax, LIMIT_AZM_MAX_DEG])
    (by norm_num [lroundQ, axisPos, bootState, axisSpd, STEPS_PER_DEG_AZM])

/- ─────────────── evaluation lemmas for concrete values ─────────────── -/

theorem atofQ_c0007 : atofQ "0.0007" = 7 / 10000 := by
  rw [show atofQ "0.0007" = ((0 : ℕ) : ℚ) + ((7 : ℕ) : ℚ) / (10 : ℚ) ^ (4 : ℕ) from rfl]
  norm_num

theorem atofQ_c0003 : atofQ "0.0003" = 3 / 10000 := by
  rw [show atofQ "0.0003" = ((0 : ℕ) : ℚ) + ((3 : ℕ) : ℚ) / (10 : ℚ) ^ (4 : ℕ) from rfl]
  norm_num

theorem atofQ_c5 : atofQ "5" = 5 := by
  rw [show atofQ "5" = ((5 : ℕ) : ℚ) + ((0 : ℕ) : ℚ) / (10 : ℚ) ^ (0 : ℕ) from rfl]
  norm_num

theorem atofQ_m20 : atofQ "-20" = -20 := by
  rw [show atofQ "-20" = -(((20 : ℕ) : ℚ) + ((0 : ℕ) : ℚ) / (10 : ℚ) ^ (0 : ℕ)) from rfl]
  norm_num

theorem atofQ_m001 : atofQ "-0.01" = -(1 / 100) := by
  rw [show atofQ "-0.01" = -(((0 : ℕ) : ℚ) + ((1 : ℕ) : ℚ) / (10 : ℚ) ^ (2 : ℕ)) from rfl]
  norm_num

theorem atofQ_c00104 : atofQ "0.0104" = 104 / 10000 := by
  rw [show atofQ "0.0104" = ((0 : ℕ) : ℚ) + ((104 : ℕ) : ℚ) / (10 : ℚ) ^ (4 : ℕ) from rfl]
  norm_num

theorem fmt3_zero : fmt3 0 = "0.000" := by
  norm_num [fmt3, pad3]
  decide

theorem fmt3_five : fmt3 5 = "5.000" := by
  norm_num [fmt3]
  decide

theorem fmt3_7tenthous : fmt3 (7 / 10000) = "0.001" := by
  norm_num [fmt3, pad3]
  decide

theorem fmt3_3tenthous : fmt3 (3 / 10000) = "0.000" := by
  norm_num [fmt3, pad3]
  decide

/- ───────────────────────── claim C5 ───────────────────────── -/

/-- C5 (counterexample): from boot, the accepted absolute jog to `0.0007`°
moves the azimuth position to `0.0007`; the next absolute jog to `0.0003`° is
in range with the hold flag clear, but rounds to zero pulses and leaves the
position at `0.0007`; the following `?` poll therefore reports `0.001`, not
`V = 0.0003` formatted to three decimals (`0.000`). -/
theorem c5_cex_roundtrip_fails :
    LIMIT_AZM_MIN_DEG ≤ (3 : ℚ) / 10000
    ∧ (3 : ℚ) / 10000 ≤ LIMIT_AZM_MAX_DEG
    ∧ (processLine bootState "$J=G53X0.0007F100").1
        = { posDegAZM := 7 / 10000, posDegALT := 0, feedHold := false }
    ∧ (processLine { posDegAZM := 7 / 10000, posDegALT := 0, feedHold := false }
          "$J=G53X0.0003F100").1
        = { posDegAZM := 7 / 10000, posDegALT := 0, feedHold := false }
    ∧ (processLine { posDegAZM := 7 / 10000, posDegALT := 0, feedHold := false } "?").2.1
        = ["<Idle|MPos:0.001,0.000,0|", ""]
    ∧ fmt3 ((3 : ℚ) / 10000) = "0.000"
    ∧ ("<Idle|MPos:0.001,0.000,0|" : String) ≠ "<Idle|MPos:0.000,0.000,0|" := by
  refine ⟨by norm_num [LIMIT_AZM_MIN_DEG], by norm_num [LIMIT_AZM_MAX_DEG], ?_, ?_, ?_,
    fmt3_3tenthous, by decide⟩
  · rw [show (processLine bootState "$J=G53X0.0007F100").1
        = (execJog bootState (axisChar Axis.AZM) false (atofQ "0.0007")).1 from rfl,
      atofQ_c0007,
      execJog_accept Axis.AZM bootState false (7 / 10000)
        (by norm_num [axisPos, bootState, axisMin, LIMIT_AZM_MIN_DEG])
        (by norm_num [axisPos, bootState, axisMax, LIMIT_AZM_MAX_DEG])]
    dsimp only
    rw [stepAxis_posAfter]
    norm_num [lroundQ, axisPos, bootState, axisSpd, STEPS_PER_DEG_AZM, setAxisPos]
  · rw [show (processLine { posDegAZM := 7 / 10000, posDegALT := 0, feedHold := false }
          "$J=G53X0.0003F100").1
        = (execJog { posDegAZM := 7 / 10000, posDegALT := 0, feedHold := false }
            (axisChar Axis.AZM) false (atofQ "0.0003")).1 from rfl,
      atofQ_c0003,
      execJog_accept Axis.AZM _ false (3 / 10000)
        (by norm_num [axisPos, axisMin, LIMIT_AZM_MIN_DEG])
        (by norm_num [axisPos, axisMax, LIMIT_AZM_MAX_DEG])]
    dsimp only
    rw [stepAxis_posAfter]
    norm_num [lroundQ, axisPos, axisSpd, STEPS_PER_DEG_AZM, setAxisPos]
  · rw [show (processLine { posDegAZM := 7 / 10000, posDegALT := 0, feedHold := false } "?").2.1
        = [sendStatus { posDegAZM := 7 / 10000, posDegALT := 0, feedHold := false } "Idle", ""]
        from rfl,
      show sendStatus { posDegAZM := 7 / 10000, posDegALT := 0, feedHold := false } "Idle"
        = "<" ++ "Idle" ++ "|MPos:" ++ fmt3 (7 / 10000) ++ "," ++ fmt3 0 ++ ",0|" from rfl,
      fmt3_7tenthous, fmt3_zero]
    decide

/-- C5 (amended): an absolute jog to an in-range `V` with the hold flag clear
and a nonzero rounded pulse count sets the axis position to exactly `V`, and
an immediately following `?` poll emits the `Idle` status frame of that state,
whose axis field is `V` printed to three decimals; jogs whose delta rounds to
zero pulses leave the position (and hence the report) unchanged.  The concrete
scenario of the claim holds as stated (see the witness). -/
theorem c5_abs_jog_roundtrip (a : Axis) (st : Ctrl) (v : ℚ)
    (hh : st.feedHold = false)
    (hlo : axisMin a ≤ v) (hhi : v ≤ axisMax a)
    (hnz : lroundQ ((v - axisPos st a) * axisSpd a) ≠ 0) :
    axisPos (execJog st (axisChar a) false v).1 a = v
    ∧ processLine (execJog st (axisChar a) false v).1 "?"
        = ((execJog st (axisChar a) false v).1,
           [sendStatus (execJog st (axisChar a) false v).1 "Idle", ""], []) := by
  constructor
  · rw [execJog_accept a st false v hlo hhi]
    dsimp only
    rw [axisPos_set, stepAxis_posAfter]
    show (if lroundQ ((v - axisPos st a) * axisSpd a) = 0 then axisPos st a
      else axisPos st a + (v - axisPos st a)) = v
    rw [if_neg hnz]
    ring
  · rw [show processLine (execJog st (axisChar a) false v).1 "?"
        = ((execJog st (axisChar a) false v).1,
           [sendStatus (execJog st (axisChar a) false v).1
             (if (execJog st (axisChar a) false v).1.feedHold then "Hold" else "Idle"), ""],
           []) from rfl,
      execJog_feedHold, hh]
    rfl

/-- C5 (witness): the concrete scenario — from boot, `$J=G53X5F300` is
accepted and moves azimuth to 5, the status frame is
`<Idle|MPos:5.000,0.000,0|`, and the relative altitude jog by −20 is rejected
leaving the position at (5, 0). -/
theorem c5_roundtrip_witness :
    axisPos (execJog bootState 'X' false 5).1 Axis.AZM = 5
    ∧ processLine (execJog bootState 'X' false 5).1 "?"
        = ((execJog bootState 'X' false 5).1,
           [sendStatus (execJog bootState 'X' false 5).1 "Idle", ""], [])
    ∧ (processLine bootState "$J=G53X5F300").1
        = { posDegAZM := 5, posDegALT := 0, feedHold := false }
    ∧ sendStatus { posDegAZM := 5, posDegALT := 0, feedHold := false } "Idle"
        = "<Idle|MPos:5.000,0.000,0|"
    ∧ (processLine { posDegAZM := 5, posDegALT := 0, feedHold := false } "$J=G91Y-20F100").1
        = { posDegAZM := 5, posDegALT := 0, feedHold := false }
    ∧ "error:ALT limit"
        ∈ (processLine { posDegAZM := 5, posDegALT := 0, feedHold := false }
            "$J=G91Y-20F100").2.1 := by
  have h := c5_abs_jog_roundtrip Axis.AZM bootState 5 rfl
    (by norm_num [axisMin, LIMIT_AZM_MIN_DEG])
    (by norm_num [axisMax, LIMIT_AZM_MAX_DEG])
    (by norm_num [lroundQ, axisPos, bootState, axisSpd, STEPS_PER_DEG_AZM])
  have hrej : execJog { posDegAZM := 5, posDegALT := 0, feedHold := false }
      (axisChar Axis.ALT) true (-20)
      = ({ posDegAZM := 5, posDegALT := 0, feedHold := false }, ["error:ALT limit"], []) := by
    rw [execJog_eq]
    rw [if_pos (Or.inl (by norm_num [axisPos, axisMin, LIMIT_ALT_MIN_DEG]))]
    rfl
  refine ⟨h.1, h.2, ?_, ?_, ?_, ?_⟩
  · rw [show (processLine bootState "$J=G53X5F300").1
        = (execJog bootState (axisChar Axis.AZM) false (atofQ "5")).1 from rfl,
      atofQ_c5,
      execJog_accept Axis.AZM bootState false 5
        (by norm_num [axisPos, bootState, axisMin, LIMIT_AZM_MIN_DEG])
        (by norm_num [axisPos, bootState, axisMax, LIMIT_AZM_MAX_DEG])]
    dsimp only
    rw [stepAxis_posAfter]
    norm_num [lroundQ, axisPos, bootState, axisSpd, STEPS_PER_DEG_AZM, setAxisPos]
  · rw [show sendStatus { posDegAZM := 5, posDegALT := 0, feedHold := false } "Idle"
        = "<" ++ "Idle" ++ "|MPos:" ++ fmt3 5 ++ "," ++ fmt3 0 ++ ",0|" from rfl,
      fmt3_five, fmt3_zero]
    decide
  · rw [show (processLine { posDegAZM := 5, posDegALT := 0, feedHold := false }
          "$J=G91Y-20F100").1
        = (execJog { posDegAZM := 5, posDegALT := 0, feedHold := false }
            (axisChar Axis.ALT) true (atofQ "-20")).1 from rfl,
      atofQ_m20, hrej]
  · rw [show (processLine { posDegAZM := 5, posDegALT := 0, feedHold := false }
          "$J=G91Y-20F100").2.1
        = ["ok", sendStatus { posDegAZM := 5, posDegALT := 0, feedHold := false } "Run"]
          ++ (execJog { posDegAZM := 5, posDegALT := 0, feedHold := false }
              (axisChar Axis.ALT) true (atofQ "-20")).2.1
          ++ [sendStatus
              (execJog { posDegAZM := 5, posDegALT := 0, feedHold := false }
                (axisChar Axis.ALT) true (atofQ "-20")).1
              (if (execJog { posDegAZM := 5, posDegALT := 0, feedHold := false }
                  (axisChar Axis.ALT) true (atofQ "-20")).1.feedHold
               then "Hold" else "Idle")] from rfl,
      atofQ_m20, hrej]
    simp

/- ───────────────────────── claims C6 and C7 ───────────────────────── -/

/-- C6 (counterexample): after the accepted jogs `$J=G53X-0.01F100` and
`$J=G91X0.0104F100` the azimuth position is `0.0004`°, which rounds to zero
pulses; `HOME` then returns early from the azimuth move and leaves
`posDegAZM = 0.0004 ≠ 0`, so HOME does not always zero the logical
positions. -/
theorem c6_cex_home_keeps_subpulse_residual :
    (processLines bootState ["$J=G53X-0.01F100", "$J=G91X0.0104F100", "HOME"]).1.posDegAZM
        = 1 / 2500
    ∧ ((1 : ℚ) / 2500 ≠ 0) := by
  have e1 : (processLines bootState ["$J=G53X-0.01F100", "$J=G91X0.0104F100", "HOME"]).1
      = (processLine (processLine (processLine bootState "$J=G53X-0.01F100").1
          "$J=G91X0.0104F100").1 "HOME").1 := rfl
  have h1 : (processLine bootState "$J=G53X-0.01F100").1
      = { posDegAZM := -(1 / 100), posDegALT := 0, feedHold := false } := by
    rw [show (processLine bootState "$J=G53X-0.01F100").1
        = (execJog bootState (axisChar Axis.AZM) false (atofQ "-0.01")).1 from rfl,
      atofQ_m001,
      execJog_accept Axis.AZM bootState false (-(1 / 100))
        (by norm_num [axisPos, bootState, axisMin, LIMIT_AZM_MIN_DEG])
        (by norm_num [axisPos, bootState, axisMax, LIMIT_AZM_MAX_DEG])]
    dsimp only
    rw [stepAxis_posAfter]
    norm_num [lroundQ, axisPos, bootState, axisSpd, STEPS_PER_DEG_AZM, setAxisPos]
  have h2 : (processLine { posDegAZM := -(1 / 100), posDegALT := 0, feedHold := false }
        "$J=G91X0.0104F100").1
      = { posDegAZM := 1 / 2500, posDegALT := 0, feedHold := false } := by
    rw [show (processLine { posDegAZM := -(1 / 100), posDegALT := 0, feedHold := false }
          "$J=G91X0.0104F100").1
        = (execJog { posDegAZM := -(1 / 100), posDegALT := 0, feedHold := false }
            (axisChar Axis.AZM) true (atofQ "0.0104")).1 from rfl,
      atofQ_c00104,
      execJog_accept Axis.AZM _ true (104 / 10000)
        (by norm_num [axisPos, axisMin, LIMIT_AZM_MIN_DEG])
        (by norm_num [axisPos, axisMax, LIMIT_AZM_MAX_DEG])]
    dsimp only
    rw [stepAxis_posAfter]
    norm_num [lroundQ, axisPos, axisSpd, STEPS_PER_DEG_AZM, setAxisPos]
  have h3 : (processLine { posDegAZM := 1 / 2500, posDegALT := 0, feedHold := false }
        "HOME").1
      = { posDegAZM := 1 / 2500, posDegALT := 0, feedHold := false } := by
    rw [show (processLine { posDegAZM := 1 / 2500, posDegALT := 0, feedHold := false }
          "HOME").1
        = { posDegAZM :=
              (stepAxis Axis.AZM (-(1 / 2500)) STEPS_PER_DEG_AZM (1 / 2500)
                (fun _ => false)).posAfter,
            posDegALT :=
              (stepAxis Axis.ALT (-(0 : ℚ)) STEPS_PER_DEG_ALT 0 (fun _ => false)).posAfter,
            feedHold := false } from rfl,
      stepAxis_posAfter, stepAxis_posAfter]
    norm_num [lroundQ, STEPS_PER_DEG_AZM, STEPS_PER_DEG_ALT]
  rw [e1, h1, h2, h3]
  norm_num

/-- C6 (amended): handling `HOME` replies `BUSY`, moves azimuth then altitude
by their negated current positions sequentially, zeroing exactly those axes
whose position rounds to at least one pulse (an axis with a sub-half-pulse
position is left unchanged by the zero-count early return), then replies `OK`
followed by one status frame. -/
theorem c6_amended_home_zeroes_rounded_axes (st : Ctrl) :
    (processLine st "HOME").1.posDegAZM
        = (if lroundQ (-st.posDegAZM * STEPS_PER_DEG_AZM) = 0 then st.posDegAZM else 0)
    ∧ (processLine st "HOME").1.posDegALT
        = (if lroundQ (-st.posDegALT * STEPS_PER_DEG_ALT) = 0 then st.posDegALT else 0)
    ∧ (processLine st "HOME").1.feedHold = st.feedHold
    ∧ (processLine st "HOME").2.1
        = ["BUSY", "OK", sendStatus (processLine st "HOME").1 "Idle"] := by
  have hA : (processLine st "HOME").1.posDegAZM
      = (stepAxis Axis.AZM (-st.posDegAZM) STEPS_PER_DEG_AZM st.posDegAZM
          (fun _ => st.feedHold)).posAfter := rfl
  have hB : (processLine st "HOME").1.posDegALT
      = (stepAxis Axis.ALT (-st.posDegALT) STEPS_PER_DEG_ALT st.posDegALT
          (fun _ => st.feedHold)).posAfter := rfl
  refine ⟨?_, ?_, rfl, rfl⟩
  · rw [hA, stepAxis_posAfter]
    by_cases hz : lroundQ (-st.posDegAZM * STEPS_PER_DEG_AZM) = 0
    · rw [if_pos hz, if_pos hz]
    · rw [if_neg hz, if_neg hz]
      ring
  · rw [hB, stepAxis_posAfter]
    by_cases hz : lroundQ (-st.posDegALT * STEPS_PER_DEG_ALT) = 0
    · rw [if_pos hz, if_pos hz]
    · rw [if_neg hz, if_neg hz]
      ring

/-- C7 (counterexample): the legacy jog `AZM:0` has delta 0 and an in-range
result, yet the controller replies `BUSY` anyway: the sketch prints `BUSY`
unconditionally once the limit check passes, not only for nonzero deltas. -/
theorem c7_cex_busy_printed_for_zero_delta :
    atofQ (String.mk (("AZM:0" : String).data.drop 4)) = 0
    ∧ (processLine bootState "AZM:0").2.1
        = ["BUSY", "OK", "<Idle|MPos:0.000,0.000,0|"] := by
  have hz0 : atofQ "0" = 0 := by
    rw [show atofQ "0" = ((0 : ℕ) : ℚ) + ((0 : ℕ) : ℚ) / (10 : ℚ) ^ (0 : ℕ) from rfl]
    norm_num
  have hframe : sendStatus bootState "Idle" = "<Idle|MPos:0.000,0.000,0|" := by
    rw [show sendStatus bootState "Idle"
        = "<" ++ "Idle" ++ "|MPos:" ++ fmt3 0 ++ "," ++ fmt3 0 ++ ",0|" from rfl, fmt3_zero]
    decide
  constructor
  · exact hz0
  · rw [show (processLine bootState "AZM:0").2.1
        = (handleLegacy bootState Axis.AZM (atofQ "0")).2.1 from rfl,
      hz0,
      handleLegacy_accept bootState Axis.AZM 0
        (by norm_num [axisPos, bootState, axisMin, LIMIT_AZM_MIN_DEG])
        (by norm_num [axisPos, bootState, axisMax, LIMIT_AZM_MAX_DEG]),
      stepAxis_z _ _ _ _ _ (by norm_num [lroundQ, axisSpd, STEPS_PER_DEG_AZM])]
    show ["BUSY", "OK", sendStatus bootState "Idle"]
        = ["BUSY", "OK", "<Idle|MPos:0.000,0.000,0|"]
    rw [hframe]

/-- C7 (amended): for every legacy jog whose resulting position is within the
axis's soft limits, the controller replies `BUSY` unconditionally (also when
the delta is zero), performs the move, then replies `OK` and a status frame;
the position advances by the delta when it rounds to at least one pulse and
is unchanged otherwise, and the hold flag is untouched. -/
theorem c7_amended_legacy_busy_then_ok (st : Ctrl) (a : Axis) (d : ℚ)
    (hlo : axisMin a ≤ axisPos st a + d) (hhi : axisPos st a + d ≤ axisMax a) :
    (handleLegacy st a d).2.1
        = ["BUSY", "OK",
           sendStatus (handleLegacy st a d).1 (if st.feedHold then "Hold" else "Idle")]
    ∧ axisPos (handleLegacy st a d).1 a
        = (if lroundQ (d * axisSpd a) = 0 then axisPos st a else axisPos st a + d)
    ∧ (handleLegacy st a d).1.feedHold = st.feedHold := by
  rw [handleLegacy_accept st a d hlo hhi]
  refine ⟨?_, ?_, setAxisPos_feedHold st a _⟩
  · dsimp only
    rw [setAxisPos_feedHold]
  · dsimp only
    rw [axisPos_set, stepAxis_posAfter]

/-- C7 (witness): the legacy azimuth jog by 1° from boot. -/
theorem c7_amended_witness :
    (handleLegacy bootState Axis.AZM 1).2.1
        = ["BUSY", "OK",
           sendStatus (handleLegacy bootState Axis.AZM 1).1
             (if bootState.feedHold then "Hold" else "Idle")]
    ∧ axisPos (handleLegacy bootState Axis.AZM 1).1 Axis.AZM
        = (if lroundQ ((1 : ℚ) * axisSpd Axis.AZM) = 0 then axisPos bootState Axis.AZM
           else axisPos bootState Axis.AZM + 1)
    ∧ (handleLegacy bootState Axis.AZM 1).1.feedHold = bootState.feedHold :=
  c7_amended_legacy_busy_then_ok bootState Axis.AZM 1
    (by norm_num [axisPos, bootState, axisMin, LIMIT_AZM_MIN_DEG])
    (by norm_num [axisPos, bootState, axisMax, LIMIT_AZM_MAX_DEG])

/- ───────────────────────── claims C8 and C9 ───────────────────────── -/

/-- C8: the feed-hold flag is false at boot, is set (to true) exactly by the
`!` line, cleared exactly by the `~` line, and every other command line —
polls, jogs, legacy moves, `RST`, `HOME`, unknown input — and all motion
execution leave it untouched; it never auto-clears. -/
theorem c8_feedhold_lifecycle :
    bootState.feedHold = false
    ∧ ∀ (st : Ctrl) (raw : String),
        (processLine st raw).1.feedHold
          = (if trimStr raw = "!" then true
             else if trimStr raw = "~" then false
             else st.feedHold) := by
  refine ⟨rfl, fun st raw => ?_⟩
  unfold processLine
  dsimp only
  by_cases h1 : trimStr raw = ""
  · rw [if_pos h1, h1]
    simp
  rw [if_neg h1]
  by_cases h2 : trimStr raw = "?"
  · rw [if_pos h2, h2]
    simp
  rw [if_neg h2]
  by_cases h3 : trimStr raw = "!"
  · rw [if_pos h3, if_pos h3]
  rw [if_neg h3, if_neg h3]
  by_cases h4 : trimStr raw = "~"
  · rw [if_pos h4, if_pos h4]
  rw [if_neg h4, if_neg h4]
  by_cases h5 : trimStr raw = "$X"
  · rw [if_pos h5]
  rw [if_neg h5]
  by_cases h6 : (strStarts (trimStr raw) "$J=" || strStarts (trimStr raw) "J=") = true
  · rw [if_pos h6]
    exact handleJog_feedHold st _
  rw [if_neg h6]
  by_cases h7 : strStarts (trimStr raw) "AZM:" = true
  · rw [if_pos h7]
    exact handleLegacy_feedHold st _ _
  rw [if_neg h7]
  by_cases h8 : strStarts (trimStr raw) "ALT:" = true
  · rw [if_pos h8]
    exact handleLegacy_feedHold st _ _
  rw [if_neg h8]
  by_cases h9 : trimStr raw = "RST"
  · rw [if_pos h9]
  rw [if_neg h9]
  by_cases h10 : trimStr raw = "HOME"
  · rw [if_pos h10]
  rw [if_neg h10]
  by_cases h11 : (trimStr raw = "POS?" || trimStr raw = "STA?") = true
  · rw [if_pos h11]
  rw [if_neg h11]

theorem execJog_badAxis (st : Ctrl) (c : Char) (rel : Bool) (v : ℚ)
    (hx : ¬c = 'X') (hy : ¬c = 'Y') :
    execJog st c rel v = (st, ["error:Axis"], []) := by
  unfold execJog
  rw [if_neg hx, if_neg hy]

theorem handleJog_malformed (st : Ctrl) (rest : String)
    (hm : jogMalformedb rest = true) :
    (handleJog st rest).1 = st
    ∧ (handleJog st rest).2.2 = []
    ∧ ((handleJog st rest).2.1 = ["error:Expected G91/G53"]
       ∨ (handleJog st rest).2.1 = ["error:Bad $J format"]
       ∨ "error:Axis" ∈ (handleJog st rest).2.1) := by
  unfold handleJog jogMalformedb at *
  cases hms : modeSplit rest with
  | none =>
    exact ⟨rfl, rfl, Or.inl rfl⟩
  | some p =>
    obtain ⟨rel, r1⟩ := p
    rw [hms] at hm
    dsimp only at hm ⊢
    by_cases hf : fIndex (trimStr (String.mk (removeG21 r1.data))).data < 2
    · rw [if_pos hf]
      exact ⟨rfl, rfl, Or.inr (Or.inl rfl)⟩
    · rw [if_neg hf] at hm ⊢
      have hax := of_decide_eq_true hm
      rw [execJog_badAxis st _ rel _ hax.1 hax.2]
      refine ⟨rfl, rfl, Or.inr (Or.inr ?_)⟩
      simp

/-- C9: every `$J=`/`J=` line that is malformed — missing the `G91`/`G53`
mode token, with `F` missing or placed before a complete
axis-letter-plus-value, or carrying an axis letter other than `X`/`Y` —
produces the corresponding descriptive error reply, emits no step pulses, and
leaves the whole controller state (both positions and the hold flag)
unchanged. -/
theorem c9_malformed_jog_rejected (st : Ctrl) (raw : String)
    (hpre : (strStarts (trimStr raw) "$J=" || strStarts (trimStr raw) "J=") = true)
    (hm : jogMalformedb (afterEq (trimStr raw)) = true) :
    (processLine st raw).1 = st
    ∧ (processLine st raw).2.2 = []
    ∧ ((processLine st raw).2.1 = ["error:Expected G91/G53"]
       ∨ (processLine st raw).2.1 = ["error:Bad $J format"]
       ∨ "error:Axis" ∈ (processLine st raw).2.1) := by
  have hdisp : processLine st raw = handleJog st (afterEq (trimStr raw)) := by
    unfold processLine
    dsimp only
    have h1 : ¬trimStr raw = "" := by
      intro h; rw [h] at hpre; exact absurd hpre (by decide)
    have h2 : ¬trimStr raw = "?" := by
      intro h; rw [h] at hpre; exact absurd hpre (by decide)
    have h3 : ¬trimStr raw = "!" := by
      intro h; rw [h] at hpre; exact absurd hpre (by decide)
    have h4 : ¬trimStr raw = "~" := by
      intro h; rw [h] at hpre; exact absurd hpre (by decide)
    have h5 : ¬trimStr raw = "$X" := by
      intro h; rw [h] at hpre; exact absurd hpre (by decide)
    rw [if_neg h1, if_neg h2, if_neg h3, if_neg h4, if_neg h5, if_pos hpre]
  rw [hdisp]
  exact handleJog_malformed st _ hm

/-- C9 (witness): the line `$J=G92X1F100` (bad mode token) is rejected with a
descriptive error and does not change the boot state. -/
theorem c9_malformed_witness :
    (processLine bootState "$J=G92X1F100").1 = bootState
    ∧ (processLine bootState "$J=G92X1F100").2.2 = []
    ∧ ((processLine bootState "$J=G92X1F100").2.1 = ["error:Expected G91/G53"]
       ∨ (processLine bootState "$J=G92X1F100").2.1 = ["error:Bad $J format"]
       ∨ "error:Axis" ∈ (processLine bootState "$J=G92X1F100").2.1) :=
  c9_malformed_jog_rejected bootState "$J=G92X1F100" (by decide) (by decide)

/- ───────────────────────── claim C10 ───────────────────────── -/

theorem inLimits_axis (st : Ctrl) (h : inLimits st) (a : Axis) :
    axisMin a ≤ axisPos st a ∧ axisPos st a ≤ axisMax a := by
  obtain ⟨h1, h2, h3, h4⟩ := h
  cases a
  · exact ⟨h1, h2⟩
  · exact ⟨h3, h4⟩

theorem inLimits_setAxisPos (st : Ctrl) (a : Axis) (p : ℚ) (h : inLimits st)
    (hlo : axisMin a ≤ p) (hhi : p ≤ axisMax a) : inLimits (setAxisPos st a p) := by
  obtain ⟨h1, h2, h3, h4⟩ := h
  cases a
  · exact ⟨hlo, hhi, h3, h4⟩
  · exact ⟨h1, h2, hlo, hhi⟩

theorem execJog_axis_inLimits (a : Axis) (st : Ctrl) (rel : Bool) (v : ℚ)
    (h : inLimits st) : inLimits (execJog st (axisChar a) rel v).1 := by
  rw [execJog_eq]
  by_cases hlim : (if rel then axisPos st a + v else v) < axisMin a
      ∨ (if rel then axisPos st a + v else v) > axisMax a
  · rw [if_pos hlim]
    exact h
  · rw [if_neg hlim]
    rw [not_or] at hlim
    obtain ⟨hlo, hhi⟩ := hlim
    rw [not_lt] at hlo hhi
    dsimp only
    refine inLimits_setAxisPos st a _ h ?_ ?_
    · rw [stepAxis_posAfter]
      by_cases hz : lroundQ (((if rel then axisPos st a + v else v) - axisPos st a)
          * axisSpd a) = 0
      · rw [if_pos hz]
        exact (inLimits_axis st h a).1
      · rw [if_neg hz]
        have he : axisPos st a + ((if rel then axisPos st a + v else v) - axisPos st a)
            = (if rel then axisPos st a + v else v) := by ring
        rw [he]
        exact hlo
    · rw [stepAxis_posAfter]
      by_cases hz : lroundQ (((if rel then axisPos st a + v else v) - axisPos st a)
          * axisSpd a) = 0
      · rw [if_pos hz]
        exact (inLimits_axis st h a).2
      · rw [if_neg hz]
        have he : axisPos st a + ((if rel then axisPos st a + v else v) - axisPos st a)
            = (if rel then axisPos st a + v else v) := by ring
        rw [he]
        exact hhi

theorem execJog_inLimits (st : Ctrl) (c : Char) (rel : Bool) (v : ℚ)
    (h : inLimits st) : inLimits (execJog st c rel v).1 := by
  by_cases hx : c = 'X'
  · rw [hx]
    exact execJog_axis_inLimits Axis.AZM st rel v h
  by_cases hy : c = 'Y'
  · rw [hy]
    exact execJog_axis_inLimits Axis.ALT st rel v h
  rw [execJog_badAxis st c rel v hx hy]
  exact h

theorem handleJog_inLimits (st : Ctrl) (rest : String) (h : inLimits st) :
    inLimits (handleJog st rest).1 := by
  unfold handleJog
  cases modeSplit rest with
  | none => exact h
  | some p =>
    obtain ⟨rel, r1⟩ := p
    dsimp only
    split_ifs
    · exact h
    all_goals exact execJog_inLimits st _ rel _ h

theorem handleLegacy_inLimits (st : Ctrl) (a : Axis) (d : ℚ) (h : inLimits st) :
    inLimits (handleLegacy st a d).1 := by
  rw [handleLegacy_eq]
  by_cases hlim : axisPos st a + d < axisMin a ∨ axisPos st a + d > axisMax a
  · rw [if_pos hlim]
    exact h
  · rw [if_neg hlim]
    rw [not_or] at hlim
    obtain ⟨hlo, hhi⟩ := hlim
    rw [not_lt] at hlo hhi
    dsimp only
    refine inLimits_setAxisPos st a _ h ?_ ?_
    · rw [stepAxis_posAfter]
      split_ifs with hz
      · exact (inLimits_axis st h a).1
      · exact hlo
    · rw [stepAxis_posAfter]
      split_ifs with hz
      · exact (inLimits_axis st h a).2
      · exact hhi

theorem processLine_inLimits (st : Ctrl) (raw : String) (h : inLimits st) :
    inLimits (processLine st raw).1 := by
  unfold processLine
  dsimp only
  by_cases h1 : trimStr raw = ""
  · rw [if_pos h1]; exact h
  rw [if_neg h1]
  by_cases h2 : trimStr raw = "?"
  · rw [if_pos h2]; exact h
  rw [if_neg h2]
  by_cases h3 : trimStr raw = "!"
  · rw [if_pos h3]; exact h
  rw [if_neg h3]
  by_cases h4 : trimStr raw = "~"
  · rw [if_pos h4]; exact h
  rw [if_neg h4]
  by_cases h5 : trimStr raw = "$X"
  · rw [if_pos h5]; exact h
  rw [if_neg h5]
  by_cases h6 : (strStarts (trimStr raw) "$J=" || strStarts (trimStr raw) "J=") = true
  · rw [if_pos h6]
    exact handleJog_inLimits st _ h
  rw [if_neg h6]
  by_cases h7 : strStarts (trimStr raw) "AZM:" = true
  · rw [if_pos h7]
    exact handleLegacy_inLimits st _ _ h
  rw [if_neg h7]
  by_cases h8 : strStarts (trimStr raw) "ALT:" = true
  · rw [if_pos h8]
    exact handleLegacy_inLimits st _ _ h
  rw [if_neg h8]
  by_cases h9 : trimStr raw = "RST"
  · rw [if_pos h9]
    refine ⟨?_, ?_, ?_, ?_⟩ <;>
      norm_num [LIMIT_AZM_MIN_DEG, LIMIT_AZM_MAX_DEG, LIMIT_ALT_MIN_DEG, LIMIT_ALT_MAX_DEG]
  rw [if_neg h9]
  by_cases h10 : trimStr raw = "HOME"
  · rw [if_pos h10]
    obtain ⟨ha1, ha2, ha3, ha4⟩ := h
    refine ⟨?_, ?_, ?_, ?_⟩
    · show LIMIT_AZM_MIN_DEG
        ≤ (stepAxis Axis.AZM (-st.posDegAZM) STEPS_PER_DEG_AZM st.posDegAZM
            (fun _ => st.feedHold)).posAfter
      rw [stepAxis_posAfter]
      split_ifs with hz
      · exact ha1
      · have he : st.posDegAZM + -st.posDegAZM = 0 := by ring
        rw [he]
        norm_num [LIMIT_AZM_MIN_DEG]
    · show (stepAxis Axis.AZM (-st.posDegAZM) STEPS_PER_DEG_AZM st.posDegAZM
            (fun _ => st.feedHold)).posAfter ≤ LIMIT_AZM_MAX_DEG
      rw [stepAxis_posAfter]
      split_ifs with hz
      · exact ha2
      · have he : st.posDegAZM + -st.posDegAZM = 0 := by ring
        rw [he]
        norm_num [LIMIT_AZM_MAX_DEG]
    · show LIMIT_ALT_MIN_DEG
        ≤ (stepAxis Axis.ALT (-st.posDegALT) STEPS_PER_DEG_ALT st.posDegALT
            (fun _ => st.feedHold)).posAfter
      rw [stepAxis_posAfter]
      split_ifs with hz
      · exact ha3
      · have he : st.posDegALT + -st.posDegALT = 0 := by ring
        rw [he]
        norm_num [LIMIT_ALT_MIN_DEG]
    · show (stepAxis Axis.ALT (-st.posDegALT) STEPS_PER_DEG_ALT st.posDegALT
            (fun _ => st.feedHold)).posAfter ≤ LIMIT_ALT_MAX_DEG
      rw [stepAxis_posAfter]
      split_ifs with hz
      · exact ha4
      · have he : st.posDegALT + -st.posDegALT = 0 := by ring
        rw [he]
        norm_num [LIMIT_ALT_MAX_DEG]
  rw [if_neg h10]
  by_cases h11 : (trimStr raw = "POS?" || trimStr raw = "STA?") = true
  · rw [if_pos h11]; exact h
  rw [if_neg h11]
  exact h

theorem processLines_inLimits (lines : List String) :
    ∀ st : Ctrl, inLimits st → inLimits (processLines st lines).1 := by
  induction lines with
  | nil => intro st h; exact h
  | cons l ls ih =>
    intro st h
    exact ih (processLine st l).1 (processLine_inLimits st l h)

/-- C10: starting from the boot state (both positions 0, each soft-limit
interval containing 0), after processing any sequence of command lines each
axis's position remains within its soft-limit interval — every accepted
move's bookkeeping advances the position exactly to a validated in-range
target (or leaves it unchanged, or sets it to 0), even across feed-hold
truncated moves, legacy jogs, `HOME`, and `RST`. -/
theorem c10_soft_limit_invariant (lines : List String) :
    LIMIT_AZM_MIN_DEG ≤ (processLines bootState lines).1.posDegAZM
    ∧ (processLines bootState lines).1.posDegAZM ≤ LIMIT_AZM_MAX_DEG
    ∧ LIMIT_ALT_MIN_DEG ≤ (processLines bootState lines).1.posDegALT
    ∧ (processLines bootState lines).1.posDegALT ≤ LIMIT_ALT_MAX_DEG :=
  processLines_inLimits lines bootState
    (by refine ⟨?_, ?_, ?_, ?_⟩ <;>
      norm_num [bootState, LIMIT_AZM_MIN_DEG, LIMIT_AZM_MAX_DEG, LIMIT_ALT_MIN_DEG,
        LIMIT_ALT_MAX_DEG])

end TPPA
